import Mathlib

/-!
Verification of the DBSTEP steric-descriptor driver (dbstep/Dbstep.py).

The definitions below are a shallow embedding of the orchestration logic of
`dbstep.__init__` and `set_options`: the chemistry lookup tables, the option
defaults, the radius-generation code, the metal/exclusion filtering of the
parallel atom arrays, the grid-axis construction, and the scan driver
(manual `rmin:rmax:step` scans and evenly-distributed `scand` scans).
Machine floats are modelled by exact rationals; `np.linspace`, Python
`round` (ties to even) and Python `int` truncation are modelled explicitly.
Fallible code (exceptions, `exit()` calls, out-of-range `np.delete`) is
modelled with `Option`/`Except`.
-/

namespace DBStep

/-- Bondi van-der-Waals radii table from Dbstep.py (`bondi` dict). -/
def bondi : List (String × ℚ) :=
  [("Bq", 0.00), ("H", 1.09), ("He", 1.40),
   ("Li", 1.81), ("Be", 1.53), ("B", 1.92), ("C", 1.70), ("N", 1.55),
   ("O", 1.52), ("F", 1.47), ("Ne", 1.54),
   ("Na", 2.27), ("Mg", 1.73), ("Al", 1.84), ("Si", 2.10), ("P", 1.80),
   ("S", 1.80), ("Cl", 1.75), ("Ar", 1.88),
   ("K", 2.75), ("Ca", 2.31), ("Ni", 1.63), ("Cu", 1.40), ("Zn", 1.39),
   ("Ga", 1.87), ("Ge", 2.11), ("As", 1.85), ("Se", 1.90), ("Br", 1.83),
   ("Kr", 2.02),
   ("Rb", 3.03), ("Sr", 2.49), ("Pd", 1.63), ("Ag", 1.72), ("Cd", 1.58),
   ("In", 1.93), ("Sn", 2.17), ("Sb", 2.06), ("Te", 2.06), ("I", 1.98),
   ("Xe", 2.16),
   ("Cs", 3.43), ("Ba", 2.68), ("Pt", 1.72), ("Au", 1.66), ("Hg", 1.55),
   ("Tl", 1.96), ("Pb", 2.02), ("Bi", 2.07), ("Po", 1.97), ("At", 2.02),
   ("Rn", 2.20),
   ("Fr", 3.48), ("Ra", 2.83), ("U", 1.86)]

/-- Periodic table of element symbols from Dbstep.py (`periodictable`);
the leading empty string mirrors the source's 1-based indexing pad. -/
def periodictable : List String :=
  ["", "H", "He", "Li", "Be", "B", "C", "N", "O", "F", "Ne",
   "Na", "Mg", "Al", "Si", "P", "S", "Cl", "Ar",
   "K", "Ca", "Sc", "Ti", "V", "Cr", "Mn", "Fe", "Co", "Ni", "Cu", "Zn",
   "Ga", "Ge", "As", "Se", "Br", "Kr",
   "Rb", "Sr", "Y", "Zr", "Nb", "Mo", "Tc", "Ru", "Rh", "Pd", "Ag", "Cd",
   "In", "Sn", "Sb", "Te", "I", "Xe",
   "Cs", "Ba", "La", "Ce", "Pr", "Nd", "Pm", "Sm", "Eu", "Gd", "Tb", "Dy",
   "Ho", "Er", "Tm", "Yb", "Lu", "Hf", "Ta", "W", "Re", "Os", "Ir", "Pt",
   "Au", "Hg", "Tl", "Pb", "Bi", "Po", "At", "Rn",
   "Fr", "Ra", "Ac", "Th", "Pa", "U", "Np", "Pu", "Am", "Cm", "Bk", "Cf",
   "Es", "Fm", "Md", "No", "Lr", "Rf", "Db", "Sg", "Bh", "Hs", "Mt", "Ds",
   "Rg", "Cn", "Nh", "Fl", "Mc", "Lv", "Ts", "Og"]

/-- List of metal element symbols from Dbstep.py (`metals`). -/
def metals : List String :=
  ["Li", "Be", "Na", "Mg", "Al", "K", "Ca", "Sc", "Ti", "V", "Cr", "Mn",
   "Fe", "Co", "Ni", "Cu", "Zn", "Ga", "Rb", "Sr", "Y", "Zr", "Nb", "Mo",
   "Tc", "Ru", "Rh", "Pd", "Ag", "Cd", "In", "Sn", "Cs", "Ba", "La", "Ce",
   "Pr", "Nd", "Pm", "Sm", "Eu", "Gd", "Tb", "Dy", "Ho", "Er", "Tm", "Yb",
   "Lu", "Hf", "Ta", "W", "Re", "Os", "Ir", "Pt", "Au", "Hg", "Tl", "Pb",
   "Bi", "Po", "Fr", "Ra", "Ac", "Th", "Pa", "U", "Np", "Pu", "Am", "Cm",
   "Bk", "Cf", "Es", "Fm", "Md", "No", "Lr", "Rf", "Db", "Sg", "Bh", "Hs",
   "Mt", "Ds", "Rg", "Cn", "Uut", "Fl", "Uup", "Lv"]

/-- Resolved configuration values, mirroring the fields set on the `options`
object by `set_options` / `main`.  `scan` and `scand` use `Option` to model
the Python `False`-or-string values. -/
structure Options where
  verbose : Bool
  grid : ℚ
  SCALE_VDW : ℚ
  noH : Bool
  add_metals : Bool
  radius : ℚ
  scan : Option String
  scand : Option ℕ
  isoval : ℚ
  sterimol : String
  surface : String
  volume : Bool

/-- Default option values from the `var_dict` table in `set_options`. -/
def set_options : Options :=
  { verbose := false, grid := 0.05, SCALE_VDW := 1.0, noH := false,
    add_metals := false, radius := 3.5, scan := none, scand := none,
    isoval := 0.002, sterimol := "grid", surface := "density",
    volume := false }

/-- Surface-mode resolution at the top of `dbstep.__init__`: files with a
`.xyz` or `.log` extension force `options.surface = 'vdw'` before any
analysis; other extensions leave the configured surface untouched. -/
def resolveSurface (ext : String) (opts : Options) : Options :=
  if ext = ".xyz" ∨ ext = ".log" then { opts with surface := "vdw" } else opts

/-- Python 3 `round` to the nearest integer, ties to even (banker's
rounding), on exact rationals. -/
def pyRound (q : ℚ) : ℤ :=
  let f := ⌊q⌋
  let r := q - f
  if r < 1 / 2 then f
  else if 1 / 2 < r then f + 1
  else if f % 2 = 0 then f else f + 1

/-- Python `int()` applied to a real number: truncation toward zero. -/
def pyInt (q : ℚ) : ℤ :=
  if 0 ≤ q then ⌊q⌋ else -⌊-q⌋

/-- `np.linspace start stop num` with the default `endpoint=True`:
`num` evenly spaced samples from `start` to `stop` inclusive;
`np.linspace start stop 1` is `[start]`. -/
def npLinspace (start stop : ℚ) (num : ℕ) : List ℚ :=
  if num = 0 then []
  else if num = 1 then [start]
  else (List.range num).map
    (fun i : ℕ => start + (i : ℚ) * (stop - start) / ((num : ℚ) - 1))

theorem npLinspace_length (a b : ℚ) (n : ℕ) : (npLinspace a b n).length = n := by
  unfold npLinspace
  split
  · simp [*]
  · split
    · simp [*]
    · simp only [List.length_map, List.length_range]

theorem npLinspace_getElem (a b : ℚ) (n i : ℕ) (hn : 2 ≤ n) (hi : i < n) :
    (npLinspace a b n)[i]? = some (a + i * (b - a) / ((n : ℚ) - 1)) := by
  unfold npLinspace
  rw [if_neg (by omega), if_neg (by omega)]
  rw [List.getElem?_map, List.getElem?_range hi, Option.map_some']

theorem npLinspace_get (a b : ℚ) (n i : ℕ) (hn : 2 ≤ n)
    (h : i < (npLinspace a b n).length) :
    (npLinspace a b n).get ⟨i, h⟩ = a + i * (b - a) / ((n : ℚ) - 1) := by
  have h' : i < n := by rwa [npLinspace_length] at h
  have h2 := npLinspace_getElem a b n i hn h'
  rw [List.getElem?_eq_getElem h] at h2
  simpa using h2

theorem npLinspace_head (a b : ℚ) (n : ℕ) (hn : 1 ≤ n) :
    (npLinspace a b n).head? = some a := by
  obtain ⟨m, rfl⟩ : ∃ m, n = m + 1 := ⟨n - 1, by omega⟩
  unfold npLinspace
  rw [if_neg (by omega)]
  by_cases h1 : m + 1 = 1
  · rw [if_pos h1]; rfl
  · rw [if_neg h1, List.range_succ_eq_map]
    simp

theorem npLinspace_getLast (a b : ℚ) (n : ℕ) (hn : 2 ≤ n) :
    (npLinspace a b n).getLast? = some b := by
  have hlen : (npLinspace a b n).length = n := npLinspace_length a b n
  have h2 := npLinspace_getElem a b n (n - 1) hn (by omega)
  have hne : ((n : ℚ) - 1) ≠ 0 := by
    have : (2 : ℚ) ≤ (n : ℚ) := by exact_mod_cast hn
    linarith
  have hcast : ((n - 1 : ℕ) : ℚ) = (n : ℚ) - 1 := by
    rw [Nat.cast_sub (by omega)]; norm_num
  rw [List.getLast?_eq_getElem?, hlen, h2, hcast]
  congr 1
  field_simp

theorem npLinspace_chain (a b : ℚ) (n : ℕ) :
    List.Chain' (fun x y => y - x = (b - a) / ((n : ℚ) - 1)) (npLinspace a b n) := by
  rcases Nat.lt_or_ge n 2 with h | h
  · interval_cases n <;> simp [npLinspace]
  · rw [List.chain'_iff_get]
    intro i hlt
    rw [npLinspace_length] at hlt
    rw [npLinspace_get a b n i h (by rw [npLinspace_length]; omega),
        npLinspace_get a b n (i + 1) h (by rw [npLinspace_length]; omega)]
    push_cast
    ring

theorem npLinspace_mem_bounds (a b : ℚ) (n : ℕ) (hab : a ≤ b) (r : ℚ)
    (hr : r ∈ npLinspace a b n) : a ≤ r ∧ r ≤ b := by
  unfold npLinspace at hr
  split at hr
  · simp at hr
  · split at hr
    · simp at hr
      constructor
      · rw [hr]
      · rw [hr]; exact hab
    · rename_i h0 h1
      rw [List.mem_map] at hr
      obtain ⟨i, hi, rfl⟩ := hr
      rw [List.mem_range] at hi
      have hn2 : 2 ≤ n := by omega
      have hpos : (0 : ℚ) < (n : ℚ) - 1 := by
        have : (2 : ℚ) ≤ (n : ℚ) := by exact_mod_cast hn2
        linarith
      have hicast : (i : ℚ) + 1 ≤ (n : ℚ) := by exact_mod_cast hi
      constructor
      · have hnn : 0 ≤ (i : ℚ) * (b - a) / ((n : ℚ) - 1) :=
          div_nonneg (mul_nonneg (by positivity) (by linarith)) (le_of_lt hpos)
        linarith
      · have hstep : (i : ℚ) * (b - a) / ((n : ℚ) - 1) ≤ b - a := by
          rw [div_le_iff₀ hpos]
          nlinarith [mul_nonneg (sub_nonneg.mpr hab)
            (sub_nonneg.mpr (show (i : ℚ) ≤ (n : ℚ) - 1 by linarith))]
        linarith

theorem npLinspace_nodup (a b : ℚ) (n : ℕ) (hab : a < b) :
    (npLinspace a b n).Nodup := by
  unfold npLinspace
  split
  · exact List.nodup_nil
  · split
    · exact List.nodup_singleton a
    · rename_i h0 h1
      have hn2 : 2 ≤ n := by omega
      have hpos : (0 : ℚ) < (n : ℚ) - 1 := by
        have : (2 : ℚ) ≤ (n : ℚ) := by exact_mod_cast hn2
        linarith
      apply List.Nodup.map _ (List.nodup_range n)
      intro i j hij
      have hd : (0 : ℚ) < (b - a) / ((n : ℚ) - 1) := div_pos (by linarith) hpos
      simp only [mul_div_assoc] at hij
      have h2 : (i : ℚ) * ((b - a) / ((n : ℚ) - 1)) = (j : ℚ) * ((b - a) / ((n : ℚ) - 1)) :=
        add_left_cancel hij
      exact Nat.cast_inj.mp (mul_right_cancel₀ (ne_of_gt hd) h2)

theorem npLinspace_head_mem (a b : ℚ) (n : ℕ) (hn : 1 ≤ n) : a ∈ npLinspace a b n := by
  have h := npLinspace_head a b n hn
  exact List.mem_of_mem_head? (by rw [h]; rfl)

theorem npLinspace_count (a b : ℚ) (n : ℕ) (hn : 1 ≤ n) (hab : a < b) :
    (npLinspace a b n).count a = 1 :=
  List.count_eq_one_of_mem (npLinspace_nodup a b n hab) (npLinspace_head_mem a b n hn)

/-- The per-atom fallback branch of the radius generation in
`dbstep.__init__` (the body of the bare `except`): an atom absent from the
periodic table calls `exit()` (modelled as `Except.error`); an atom in the
periodic table but absent from the `bondi` dict gets the fallback radius
2.0; otherwise the tabulated Bondi radius is used. -/
def fallbackRadii : List String → Except String (List ℚ)
  | [] => .ok []
  | atom :: rest =>
    if atom ∉ periodictable then
      .error ("UNABLE TO GENERATE VDW RADII FOR ATOM: " ++ atom)
    else
      match bondi.lookup atom with
      | none => (fallbackRadii rest).map (fun t => (2 : ℚ) :: t)
      | some r => (fallbackRadii rest).map (fun t => r :: t)

/-- Radius generation for vdw surfaces in `dbstep.__init__`: first the
comprehension `[bondi[atom] for atom in mol.ATOMTYPES]`, which raises
`KeyError` (caught by the bare `except`) when any atom is missing from
`bondi`, in which case the fallback loop runs instead; then all radii are
scaled by `options.SCALE_VDW`. -/
def computeRadii (atomtypes : List String) (scale : ℚ) : Except String (List ℚ) :=
  let raw : Except String (List ℚ) :=
    if atomtypes.all (fun atom => (bondi.lookup atom).isSome) then
      .ok (atomtypes.map (fun atom => (bondi.lookup atom).getD 0))
    else fallbackRadii atomtypes
  raw.map (fun radii => radii.map (fun r => r * scale))

/-- The three parallel per-atom arrays carried by the `mol` object. -/
structure MolData where
  ATOMTYPES : List String
  CARTESIANS : List (ℚ × ℚ × ℚ)
  RADII : List ℚ
deriving DecidableEq

/-- `np.delete(arr, i)` for a nonnegative index: removes position `i`;
an out-of-range index raises `IndexError`, modelled as `none`. -/
def npDeleteNat {α : Type} (l : List α) (i : ℕ) : Option (List α) :=
  if i < l.length then some (l.eraseIdx i) else none

/-- `np.delete(arr, i)` with Python/numpy index semantics: a negative index
counts from the end of the array; an index out of range on both sides
raises `IndexError`, modelled as `none`. -/
def npDeleteInt {α : Type} (l : List α) (i : ℤ) : Option (List α) :=
  if 0 ≤ i ∧ i < (l.length : ℤ) then some (l.eraseIdx i.toNat)
  else if -(l.length : ℤ) ≤ i ∧ i < 0 then some (l.eraseIdx ((l.length : ℤ) + i).toNat)
  else none

/-- The metal-removal loop of `dbstep.__init__` (vdw branch):
`for i, atom in enumerate(mol.ATOMTYPES)` iterates over the ORIGINAL
`ATOMTYPES` array (the iterator is created before any reassignment), while
each deletion reassigns the three shrinking arrays; position `i` of the
CURRENT arrays is deleted whenever the ORIGINAL atom `i` is a metal and
`add_metals` is off.  An out-of-range `np.delete` raises, modelled as
`none`. -/
def removeMetals (add_metals : Bool) (mol : MolData) : Option MolData :=
  (List.range mol.ATOMTYPES.length).foldlM
    (fun cur i =>
      if mol.ATOMTYPES.getD i "" ∈ metals ∧ add_metals = false then do
        let a ← npDeleteNat cur.ATOMTYPES i
        let c ← npDeleteNat cur.CARTESIANS i
        let r ← npDeleteNat cur.RADII i
        pure (MolData.mk a c r)
      else pure cur)
    mol

/-- The exclusion-removal loop of `dbstep.__init__`: the requested 1-based
atom numbers are processed in reverse-sorted order; each one deletes
position `del_atom - 1` from the three parallel arrays via `np.delete`
inside a `try`, and an `IndexError` is caught, printing a warning (counted
in the second component) and leaving the arrays unchanged. -/
def exclusionStep (st : MolData × ℕ) (del : ℤ) : MolData × ℕ :=
  match npDeleteInt st.1.ATOMTYPES (del - 1), npDeleteInt st.1.CARTESIANS (del - 1),
        npDeleteInt st.1.RADII (del - 1) with
  | some a, some c, some r => (MolData.mk a c r, st.2)
  | _, _, _ => (st.1, st.2 + 1)

/-- The full exclusion pass: `sorted(del_atom_list, reverse=True)` followed
by one `exclusionStep` per requested atom number. -/
def processExclusions (excl : List ℤ) (mol : MolData) : MolData × ℕ :=
  (excl.mergeSort (fun x y => decide (y ≤ x))).foldl exclusionStep (mol, 0)

/-- Axis coordinates in the vdw grid construction of `dbstep.__init__`:
`n_vals = 1 + round((max - min) / options.grid)` (Python ties-to-even
rounding) followed by `np.linspace(min, max, n_vals)`. -/
def gridAxis (mn mx spacing : ℚ) : List ℚ :=
  npLinspace mn mx (1 + pyRound ((mx - mn) / spacing)).toNat

/-- The grid point set `itertools.product(x_vals, y_vals, z_vals)`. -/
def gridPoints (xs ys zs : List ℚ) : List (ℚ × ℚ × ℚ) :=
  xs.flatMap (fun x => ys.flatMap (fun y => zs.map (fun z => (x, y, z))))

/-- Scan radii count for a manual `--scan rmin:rmax:step` request:
`r_intervals` starts at 1 and the scan branch adds
`int((r_max - r_min) / strip_width)` (Python truncation). -/
def manualScanIntervals (rmin rmax strip_width : ℚ) : ℕ :=
  (1 + pyInt ((rmax - rmin) / strip_width)).toNat

/-- Radii visited by the scan loop for a manual scan:
`np.linspace(r_min, r_max, r_intervals)`. -/
def manualScanRadii (rmin rmax strip_width : ℚ) : List ℚ :=
  npLinspace rmin rmax (manualScanIntervals rmin rmax strip_width)

/-- Radii visited for an evenly-distributed `--scand N` scan: the scand
branch sets `r_min = 0`, `r_max = L`, `r_intervals = int(options.scand)`,
so the loop runs over `np.linspace(0, L, N)`. -/
def scandRadii (N : ℕ) (L : ℚ) : List ℚ := npLinspace 0 L N

/-- Number of radii in the scan sequence at which `sterics.buried_vol` is
invoked: the guard in the main loop is `options.volume and rad == r_min`. -/
def burVolEvals (volume : Bool) (radii : List ℚ) (r_min : ℚ) : ℕ :=
  if volume then radii.count r_min else 0

/-- Squared Euclidean distance between two points. -/
def distSq (p q : ℚ × ℚ × ℚ) : ℚ :=
  (p.1 - q.1) ^ 2 + (p.2.1 - q.2.1) ^ 2 + (p.2.2 - q.2.2) ^ 2

/-- Modelled from the spec: `sterics.buried_vol` is not under `src/` (only
its caller `dbstep.__init__` is).  Spec section 4.3 defines
`buried_volume_pct` as (count of occupied points with distance-to-center
at most R) over (count of all grid points with distance-to-center at most
R), times 100.  The division is left unguarded, matching the caller's
comment at Dbstep.py lines 266-267 ("need a fix for case that radius == 0,
get divide by zero error"): a zero denominator raises, modelled as
`Except.error`. -/
def buried_vol (occ_grid : List ((ℚ × ℚ × ℚ) × Bool)) (center : ℚ × ℚ × ℚ)
    (R : ℚ) : Except String ℚ :=
  let sphere := occ_grid.filter (fun p => decide (distSq p.1 center ≤ R ^ 2))
  if sphere.length = 0 then .error "ZeroDivisionError"
  else .ok (100 * ((sphere.filter (fun p => p.2)).length : ℚ) / (sphere.length : ℚ))

/-- The Sterimol dispatch of `dbstep.__init__` (used both by the `scand`
pre-pass and inside the per-radius loop): grid mode calls
`sterics.get_cube_sterimol`; classic mode calls
`sterics.get_classic_sterimol` for vdw surfaces but calls `exit()` with a
message for density surfaces (modelled as `Except.error`).  The extractor
outputs `(L, Bmax, Bmin)` are passed in as parameters, since the extractors
live in the external `sterics` module.  The remaining combinations are
unreachable: `optparse` restricts `--sterimol` to grid/classic and other
surfaces exited earlier. -/
def sterimolPass (sterimol surface : String) (gridRes classicRes : ℚ × ℚ × ℚ) :
    Except String (ℚ × ℚ × ℚ) :=
  if sterimol = "grid" then .ok gridRes
  else if sterimol = "classic" then
    if surface = "vdw" then .ok classicRes
    else if surface = "density" then
      .error "classic Sterimol undefined for the isodensity surface: use surface vdw or sterimol grid"
    else .error "unreachable: surface already validated"
  else .error "unreachable: sterimol choice restricted by optparse"

/-- The per-radius loop of `dbstep.__init__` restricted to its Sterimol
bookkeeping: at each radius the Sterimol extractor is dispatched and `Bmin`
and `Bmax` are appended to `Bmin_list` and `Bmax_list`; an `exit()` in the
dispatch (classic + density) aborts before anything is appended, so no
partial results are produced. -/
def scanLoop (sterimol surface : String) (gridSter : ℚ → ℚ × ℚ × ℚ)
    (classicSter : ℚ × ℚ × ℚ) (radii : List ℚ) :
    Except String (List ℚ × List ℚ) :=
  radii.foldlM
    (fun acc rad => do
      let res ← sterimolPass sterimol surface (gridSter rad) classicSter
      pure (acc.1 ++ [res.2.2], acc.2 ++ [res.2.1]))
    (([], []) : List ℚ × List ℚ)

theorem npLinspace_sorted (a b : ℚ) (n : ℕ) (hab : a ≤ b) :
    List.Chain' (fun x y => x ≤ y) (npLinspace a b n) := by
  rcases Nat.lt_or_ge n 2 with h | h
  · interval_cases n <;> simp [npLinspace]
  · have hpos : (0 : ℚ) < (n : ℚ) - 1 := by
      have : (2 : ℚ) ≤ (n : ℚ) := by exact_mod_cast h
      linarith
    have hd : 0 ≤ (b - a) / ((n : ℚ) - 1) := div_nonneg (by linarith) (le_of_lt hpos)
    apply List.Chain'.imp _ (npLinspace_chain a b n)
    intro x y hxy
    linarith

theorem manualScanIntervals_pos (rmin rmax strip_width : ℚ) (h : rmin ≤ rmax)
    (hs : 0 < strip_width) : 1 ≤ manualScanIntervals rmin rmax strip_width := by
  unfold manualScanIntervals pyInt
  have harg : 0 ≤ (rmax - rmin) / strip_width := div_nonneg (by linarith) (le_of_lt hs)
  rw [if_pos harg]
  have : 0 ≤ ⌊(rmax - rmin) / strip_width⌋ := Int.floor_nonneg.mpr harg
  omega

theorem fallbackRadii_ok (l : List String) (h : ∀ a ∈ l, a ∈ periodictable) :
    fallbackRadii l = .ok (l.map (fun a => (bondi.lookup a).getD 2)) := by
  induction l with
  | nil => rfl
  | cons a rest ih =>
    have ha : a ∈ periodictable := h a (List.mem_cons_self a rest)
    unfold fallbackRadii
    rw [if_neg (by simp [ha])]
    rw [ih (fun x hx => h x (List.mem_cons_of_mem a hx))]
    cases hb : bondi.lookup a <;> simp [hb, Except.map]

theorem computeRadii_ok (atomtypes : List String) (scale : ℚ)
    (h : ∀ a ∈ atomtypes, a ∈ periodictable) :
    computeRadii atomtypes scale =
      .ok (atomtypes.map (fun a => ((bondi.lookup a).getD 2) * scale)) := by
  unfold computeRadii
  by_cases hall : atomtypes.all (fun atom => (bondi.lookup atom).isSome) = true
  · rw [if_pos hall]
    simp only [Except.map, List.map_map]
    congr 1
    apply List.map_congr_left
    intro a ha
    rw [List.all_eq_true] at hall
    have := hall a ha
    cases hb : bondi.lookup a with
    | none => rw [hb] at this; simp at this
    | some r => simp [hb]
  · rw [if_neg hall, fallbackRadii_ok atomtypes h]
    simp [Except.map, List.map_map]

theorem exclusionStep_oob (m : MolData) (k : ℕ) (del : ℤ)
    (h : (m.ATOMTYPES.length : ℤ) < del) : exclusionStep (m, k) del = (m, k + 1) := by
  have hnone : npDeleteInt m.ATOMTYPES (del - 1) = none := by
    unfold npDeleteInt
    rw [if_neg (by omega), if_neg (by omega)]
  simp only [exclusionStep, hnone]

theorem foldl_exclusionStep_oob (m : MolData) (l : List ℤ) (k : ℕ)
    (h : ∀ d ∈ l, (m.ATOMTYPES.length : ℤ) < d) :
    l.foldl exclusionStep (m, k) = (m, k + l.length) := by
  induction l generalizing k with
  | nil => simp
  | cons d rest ih =>
    rw [List.foldl_cons, exclusionStep_oob m k d (h d (List.mem_cons_self d rest)),
      ih (k + 1) (fun x hx => h x (List.mem_cons_of_mem d hx))]
    simp [List.length_cons]
    omega

/-- C1 counterexample: the claim predicts that an evenly-distributed scan
with N = 4 intervals on a molecule of length L = 8 visits the 5 radii
[0, 2, 4, 6, 8].  The scand branch sets `r_intervals = int(options.scand)`
(no +1) and loops over `np.linspace(0, L, 4)`, so the scan visits only the
4 radii [0, 8/3, 16/3, 8]. -/
theorem C1_scand_counterexample :
    scandRadii 4 8 = [0, 8 / 3, 16 / 3, 8] ∧
    (scandRadii 4 8).length ≠ 5 ∧
    scandRadii 4 8 ≠ [0, 2, 4, 6, 8] := by
  have h : scandRadii 4 8 = [0, 8 / 3, 16 / 3, 8] := by
    norm_num [scandRadii, npLinspace, List.range_succ]
  refine ⟨h, ?_, ?_⟩
  · rw [h]
    simp
  · rw [h]
    simp

/-- C1 (amended): an evenly-distributed scan request with N >= 2 intervals
on a molecule of pre-computed axial length L evaluates the Sterimol
extractor at exactly N (not N+1) radii, evenly spaced with step L/(N-1),
starting at 0 and ending at L. -/
theorem C1_scand_radii (N : ℕ) (L : ℚ) (hN : 2 ≤ N) :
    (scandRadii N L).length = N ∧
    (scandRadii N L).head? = some 0 ∧
    (scandRadii N L).getLast? = some L ∧
    List.Chain' (fun x y => y - x = L / ((N : ℚ) - 1)) (scandRadii N L) := by
  refine ⟨npLinspace_length _ _ _, npLinspace_head _ _ _ (by omega),
    npLinspace_getLast _ _ _ hN, ?_⟩
  have h := npLinspace_chain 0 L N
  simpa using h

/-- C1 witness: the amended statement evaluated at N = 4, L = 8. -/
theorem C1_scand_radii_witness :
    (scandRadii 4 8).length = 4 ∧
    (scandRadii 4 8).head? = some 0 ∧
    (scandRadii 4 8).getLast? = some 8 ∧
    List.Chain' (fun x y => y - x = 8 / (((4 : ℕ) : ℚ) - 1)) (scandRadii 4 8) :=
  C1_scand_radii 4 8 (by norm_num)

/-- C2: a buried-volume request with reporting radius R = 0 is NOT guarded:
on a grid none of whose points sits at the center, the denominator (grid
points within distance 0 of the center) is zero and the unguarded division
raises, exactly as the source comment at Dbstep.py lines 266-267 records
("need a fix for case that radius == 0, get divide by zero error"), instead
of returning the defined 0%-or-sentinel result the claim requires. -/
theorem C2_zero_radius_divzero :
    buried_vol [((1, 0, 0), true), ((0, 1, 0), true)] (0, 0, 0) 0 =
      .error "ZeroDivisionError" := by
  norm_num [buried_vol, distSq, List.filter]

/-- C3: in a scan with the volume flag set, `sterics.buried_vol` runs
exactly once, at the first radius of the scan sequence (the loop guard is
`options.volume and rad == r_min`, and `r_min` occurs exactly once in
`np.linspace(r_min, r_max, n)`, as its first element): this holds both for
manual scans with rmin < rmax and for evenly-distributed scans with
positive pre-computed length L (whose first radius is 0). -/
theorem C3_buried_vol_once (rmin rmax strip L : ℚ) (N : ℕ)
    (hlt : rmin < rmax) (hs : 0 < strip) (hN : 1 ≤ N) (hL : 0 < L) :
    burVolEvals true (manualScanRadii rmin rmax strip) rmin = 1 ∧
    (manualScanRadii rmin rmax strip).head? = some rmin ∧
    burVolEvals true (scandRadii N L) 0 = 1 ∧
    (scandRadii N L).head? = some 0 := by
  have h1 : 1 ≤ manualScanIntervals rmin rmax strip :=
    manualScanIntervals_pos _ _ _ (le_of_lt hlt) hs
  refine ⟨?_, npLinspace_head _ _ _ h1, ?_, npLinspace_head _ _ _ hN⟩
  · unfold burVolEvals
    rw [if_pos rfl]
    exact npLinspace_count _ _ _ h1 hlt
  · unfold burVolEvals
    rw [if_pos rfl]
    exact npLinspace_count _ _ _ hN hL

/-- C3 witness: a manual scan 3:5:0.25 and an even scan with N = 4, L = 8. -/
theorem C3_buried_vol_once_witness :
    burVolEvals true (manualScanRadii 3 5 (1 / 4)) 3 = 1 ∧
    (manualScanRadii 3 5 (1 / 4)).head? = some 3 ∧
    burVolEvals true (scandRadii 4 8) 0 = 1 ∧
    (scandRadii 4 8).head? = some 0 :=
  C3_buried_vol_once 3 5 (1 / 4) 8 4 (by norm_num) (by norm_num) (by norm_num)
    (by norm_num)

/-- C4: the metal-removal loop iterates over the original `ATOMTYPES` array
while deleting from the progressively shrinking arrays, so once a metal has
been removed, every later deletion index is off by one.  On the atom list
[Fe, Ni, H] (both Fe and Ni are metals, H is not) with `add_metals` off,
the loop removes Fe and H and KEEPS the metal Ni with its coordinate and
radius, contradicting the claim that every metal is removed before grid
construction. -/
theorem C4_metal_removal_bug :
    removeMetals false
        (MolData.mk ["Fe", "Ni", "H"] [(0, 0, 0), (0, 0, 1), (0, 0, 2)]
          [2, 163 / 100, 109 / 100]) =
      some (MolData.mk ["Ni"] [(0, 0, 1)] [163 / 100]) ∧
    "Fe" ∈ metals ∧ "Ni" ∈ metals ∧ "H" ∉ metals :=
  ⟨rfl, by decide, by decide, by decide⟩

/-- C5: a well-formed manual scan `rmin:rmax:step` with step > 0 and
rmax >= rmin evaluates descriptors at exactly
`1 + floor((rmax - rmin)/step)` radii, the first being rmin, every radius
lying between rmin and rmax, appended in ascending order and evenly spaced
(consecutive differences all equal). -/
theorem C5_manual_scan (rmin rmax strip r : ℚ) (hs : 0 < strip)
    (hle : rmin ≤ rmax) (hr : r ∈ manualScanRadii rmin rmax strip) :
    (manualScanRadii rmin rmax strip).length =
      (1 + ⌊(rmax - rmin) / strip⌋).toNat ∧
    (manualScanRadii rmin rmax strip).head? = some rmin ∧
    (rmin ≤ r ∧ r ≤ rmax) ∧
    List.Chain' (fun x y => x ≤ y) (manualScanRadii rmin rmax strip) ∧
    List.Chain' (fun x y => y - x =
        (rmax - rmin) / ((manualScanIntervals rmin rmax strip : ℚ) - 1))
      (manualScanRadii rmin rmax strip) := by
  have h1 : 1 ≤ manualScanIntervals rmin rmax strip :=
    manualScanIntervals_pos _ _ _ hle hs
  have harg : 0 ≤ (rmax - rmin) / strip := div_nonneg (by linarith) (le_of_lt hs)
  refine ⟨?_, npLinspace_head _ _ _ h1, npLinspace_mem_bounds _ _ _ hle r hr,
    npLinspace_sorted _ _ _ hle, npLinspace_chain rmin rmax _⟩
  unfold manualScanRadii
  rw [npLinspace_length]
  unfold manualScanIntervals pyInt
  rw [if_pos harg]

/-- C5 witness: the manual scan 3:5:0.25, which visits 9 radii; the first
radius 3 is a member of the sequence. -/
theorem C5_manual_scan_witness :
    (manualScanRadii 3 5 (1 / 4)).length = (1 + ⌊((5 : ℚ) - 3) / (1 / 4)⌋).toNat ∧
    (manualScanRadii 3 5 (1 / 4)).head? = some 3 ∧
    ((3 : ℚ) ≤ 3 ∧ (3 : ℚ) ≤ 5) ∧
    List.Chain' (fun x y => x ≤ y) (manualScanRadii 3 5 (1 / 4)) ∧
    List.Chain' (fun x y => y - x =
        ((5 : ℚ) - 3) / ((manualScanIntervals 3 5 (1 / 4) : ℚ) - 1))
      (manualScanRadii 3 5 (1 / 4)) :=
  C5_manual_scan 3 5 (1 / 4) 3 (by norm_num) (by norm_num)
    (npLinspace_head_mem 3 5 (manualScanIntervals 3 5 (1 / 4))
      (manualScanIntervals_pos 3 5 (1 / 4) (by norm_num) (by norm_num)))

/-- C6: requesting classic Sterimol together with the density surface makes
the dispatch abort with a descriptive message (the source calls `exit()`),
both in the scand pre-pass and in the per-radius loop; the loop aborts
before appending anything, so no partial Sterimol results are produced. -/
theorem C6_classic_density_aborts (gridSter : ℚ → ℚ × ℚ × ℚ)
    (classicSter : ℚ × ℚ × ℚ) (radii : List ℚ) (hne : radii ≠ []) :
    sterimolPass "classic" "density" (gridSter (7 / 2)) classicSter =
      .error "classic Sterimol undefined for the isodensity surface: use surface vdw or sterimol grid" ∧
    scanLoop "classic" "density" gridSter classicSter radii =
      .error "classic Sterimol undefined for the isodensity surface: use surface vdw or sterimol grid" := by
  obtain ⟨r, rs, rfl⟩ : ∃ r rs, radii = r :: rs := by
    cases radii with
    | nil => exact absurd rfl hne
    | cons r rs => exact ⟨r, rs, rfl⟩
  exact ⟨rfl, rfl⟩

/-- C6 witness: a concrete grid extractor, classic result, and radius list. -/
theorem C6_classic_density_aborts_witness :
    sterimolPass "classic" "density" ((fun r : ℚ => (r, r, r)) (7 / 2)) (4, 2, 1) =
      .error "classic Sterimol undefined for the isodensity surface: use surface vdw or sterimol grid" ∧
    scanLoop "classic" "density" (fun r : ℚ => (r, r, r)) (4, 2, 1) [0, 1] =
      .error "classic Sterimol undefined for the isodensity surface: use surface vdw or sterimol grid" :=
  C6_classic_density_aborts (fun r : ℚ => (r, r, r)) (4, 2, 1) [0, 1] (by decide)

/-- C7: in vdw mode, an atom list whose symbols are all in the periodic
table never aborts: `computeRadii` succeeds, each atom absent from the
`bondi` table gets the fallback radius 2.0 scaled by the global factor, and
every tabulated atom gets its Bondi radius scaled likewise. -/
theorem C7_unknown_radius_fallback (atomtypes : List String) (scale : ℚ)
    (atom : String) (h : ∀ a ∈ atomtypes, a ∈ periodictable)
    (hmem : atom ∈ atomtypes) (hunk : bondi.lookup atom = none) :
    computeRadii atomtypes scale =
      .ok (atomtypes.map (fun a => ((bondi.lookup a).getD 2) * scale)) ∧
    ((bondi.lookup atom).getD 2) * scale = 2 * scale := by
  refine ⟨computeRadii_ok atomtypes scale h, ?_⟩
  rw [hunk]
  rfl

/-- C7 witness: the list [H, Fe] at scale 3/2; Fe is in the periodic table
but has no Bondi radius, so it falls back to 2.0 (times the scale). -/
theorem C7_unknown_radius_fallback_witness :
    computeRadii ["H", "Fe"] (3 / 2) =
      .ok (["H", "Fe"].map (fun a => ((bondi.lookup a).getD 2) * (3 / 2))) ∧
    ((bondi.lookup "Fe").getD 2) * (3 / 2) = 2 * (3 / 2) :=
  C7_unknown_radius_fallback ["H", "Fe"] (3 / 2) "Fe" (by decide) (by decide)
    (by decide)

/-- C8 counterexample: the exclusion request "0" names no existing atom
(atom numbers are 1-based), yet `np.delete(arr, -1)` interprets the index
-1 from the end: on the 3-atom molecule [C, H, O] the last atom O is
silently deleted from all three arrays with NO warning, contradicting the
claim that a nonexistent index warns and leaves the arrays unchanged. -/
theorem C8_exclusion_counterexample :
    processExclusions [0]
        (MolData.mk ["C", "H", "O"] [(0, 0, 0), (0, 0, 1), (0, 0, 2)]
          [17 / 10, 109 / 100, 38 / 25]) =
      (MolData.mk ["C", "H"] [(0, 0, 0), (0, 0, 1)] [17 / 10, 109 / 100], 0) ∧
    MolData.mk ["C", "H"] [(0, 0, 0), (0, 0, 1)] [17 / 10, 109 / 100] ≠
      MolData.mk ["C", "H", "O"] [(0, 0, 0), (0, 0, 1), (0, 0, 2)]
        [17 / 10, 109 / 100, 38 / 25] := by
  constructor
  · simp [processExclusions, exclusionStep, npDeleteInt]
  · intro hcontra
    have hlen := congrArg (fun m : MolData => m.ATOMTYPES.length) hcontra
    simp at hlen

/-- C8 (amended): an excluded atom number STRICTLY GREATER than the number
of atoms produces one warning per such index and leaves the atom arrays
unchanged; but an index that is at most 0 is interpreted Python-style from
the end of the arrays and can silently delete an existing atom (see the
counterexample), so the claim holds only for too-large indices. -/
theorem C8_exclusion_oob (excl : List ℤ) (mol : MolData)
    (h : ∀ d ∈ excl, (mol.ATOMTYPES.length : ℤ) < d) :
    processExclusions excl mol = (mol, excl.length) := by
  unfold processExclusions
  rw [foldl_exclusionStep_oob mol _ 0 (fun d hd => h d (List.mem_mergeSort.mp hd)),
    List.length_mergeSort]
  simp

/-- C8 witness: excluding atom number 5 from a 3-atom molecule warns once
and leaves the arrays unchanged. -/
theorem C8_exclusion_oob_witness :
    processExclusions [5]
        (MolData.mk ["C", "H", "O"] [(0, 0, 0), (0, 0, 1), (0, 0, 2)]
          [17 / 10, 109 / 100, 38 / 25]) =
      (MolData.mk ["C", "H", "O"] [(0, 0, 0), (0, 0, 1), (0, 0, 2)]
        [17 / 10, 109 / 100, 38 / 25], 1) :=
  C8_exclusion_oob [5] _ (by decide)

/-- C9 counterexample: with extents min = 0, max = 1 and spacing 2 the
count is `1 + round(1/2) = 1` (Python rounds the tie 1/2 to the even
integer 0), and the single-point axis [0] does NOT span its max: 1 is not
in the sequence, contradicting the claim that every axis sequence spans
min and max inclusive. -/
theorem C9_grid_counterexample :
    gridAxis 0 1 2 = [0] ∧
    (1 + pyRound ((1 - 0) / 2)).toNat = 1 ∧
    (1 : ℚ) ∉ gridAxis 0 1 2 := by
  have hr : pyRound ((1 - 0) / 2) = 0 := by
    unfold pyRound
    norm_num
  have h : gridAxis 0 1 2 = [0] := by
    unfold gridAxis
    rw [hr]
    simp [npLinspace]
  refine ⟨h, by rw [hr]; rfl, ?_⟩
  rw [h]
  simp

/-- C9 (amended): each axis sequence contains exactly
`1 + round((max - min)/spacing)` points (Python ties-to-even rounding); it
spans min and max inclusive whenever that count is at least 2, while a
count of 1 yields just [min] (max is then dropped); and the grid point set
is the full outer product of the three axis sequences. -/
theorem C9_grid_axis (mn mx spacing : ℚ) (p : ℚ × ℚ × ℚ) (xs ys zs : List ℚ)
    (hle : mn ≤ mx) (hsp : 0 < spacing) :
    (gridAxis mn mx spacing).length = (1 + pyRound ((mx - mn) / spacing)).toNat ∧
    (2 ≤ (1 + pyRound ((mx - mn) / spacing)).toNat →
      (gridAxis mn mx spacing).head? = some mn ∧
      (gridAxis mn mx spacing).getLast? = some mx) ∧
    ((1 + pyRound ((mx - mn) / spacing)).toNat = 1 → gridAxis mn mx spacing = [mn]) ∧
    (p ∈ gridPoints xs ys zs ↔ p.1 ∈ xs ∧ p.2.1 ∈ ys ∧ p.2.2 ∈ zs) := by
  refine ⟨npLinspace_length _ _ _,
    fun h2 => ⟨npLinspace_head _ _ _ (by omega), npLinspace_getLast _ _ _ h2⟩,
    fun h1 => ?_, ?_⟩
  · unfold gridAxis
    rw [h1]
    simp [npLinspace]
  · obtain ⟨p1, p2, p3⟩ := p
    simp only [gridPoints, List.mem_flatMap, List.mem_map]
    constructor
    · rintro ⟨x, hx, y, hy, z, hz, heq⟩
      obtain ⟨rfl, rfl, rfl⟩ : x = p1 ∧ y = p2 ∧ z = p3 := by
        simpa [Prod.ext_iff] using heq
      exact ⟨hx, hy, hz⟩
    · rintro ⟨hx, hy, hz⟩
      exact ⟨p1, hx, p2, hy, p3, hz, rfl⟩

/-- C9 witness: extents 0 to 8 at spacing 2 give the 5-point axis
[0, 2, 4, 6, 8]; the point (2, 0, 6) lies in the product grid of
[0, 2] x [0] x [4, 6]. -/
theorem C9_grid_axis_witness :
    (gridAxis 0 8 2).length = (1 + pyRound ((8 - 0) / 2)).toNat ∧
    (2 ≤ (1 + pyRound ((8 - 0) / 2)).toNat →
      (gridAxis 0 8 2).head? = some 0 ∧ (gridAxis 0 8 2).getLast? = some 8) ∧
    ((1 + pyRound ((8 - 0) / 2)).toNat = 1 → gridAxis 0 8 2 = [0]) ∧
    ((2, 0, 6) ∈ gridPoints [0, 2] [0] [4, 6] ↔
      ((2 : ℚ), (0 : ℚ), (6 : ℚ)).1 ∈ [(0 : ℚ), 2] ∧
      ((2 : ℚ), (0 : ℚ), (6 : ℚ)).2.1 ∈ [(0 : ℚ)] ∧
      ((2 : ℚ), (0 : ℚ), (6 : ℚ)).2.2 ∈ [(4 : ℚ), 6]) :=
  C9_grid_axis 0 8 2 (2, 0, 6) [0, 2] [0] [4, 6] (by norm_num) (by norm_num)

/-- C10: any input file whose extension is .xyz or .log has its surface
mode forced to vdw before any analysis, whatever surface was configured;
the configured default from `set_options` is density. -/
theorem C10_surface_forced (ext : String) (opts : Options)
    (h : ext = ".xyz" ∨ ext = ".log") :
    (resolveSurface ext opts).surface = "vdw" ∧
    set_options.surface = "density" := by
  constructor
  · unfold resolveSurface
    rw [if_pos h]
  · rfl

/-- C10 witness: a .xyz file with the default (density) configuration. -/
theorem C10_surface_forced_witness :
    (resolveSurface ".xyz" set_options).surface = "vdw" ∧
    set_options.surface = "density" :=
  C10_surface_forced ".xyz" set_options (Or.inl rfl)

end DBStep
